import Mathlib

set_option linter.unusedVariables false

/-!
# Verification of the ciao controller core

Shallow embedding of the instance lifecycle / admission code of
`ciao-controller/instance.go`, the REST handler tenant-ownership checks of
the compute API, and the per-connection result-correlation (waiter table)
machinery of the `testutil` SSNTP client, together with theorems settling
the specification claims about them.

Machine integers of the Go source are modelled as `Int` (no arithmetic in
the verified paths comes near 64-bit overflow); Go maps are modelled as
total functions with `Option`/default-zero results, matching Go map lookup
semantics; fallible Go calls return `Except`/`Option` values.
-/

namespace Ciao

/-- A Go error value (the message of a non-nil `error`). `none` is Go `nil`. -/
abbrev GoErr := Option String

/-- `types.Resource`: one tenant quota tuple.  `rtype = 1` is the dedicated
instance-count resource (see the `res.Rtype == 1` test in
`instance.Allowed`). -/
structure Resource where
  rtype : Int
  rname : String
  limit : Int
  usage : Int
  deriving Repr, DecidableEq

/-- `types.Tenant`, restricted to the fields the embedded code reads:
the quota resources and the CNCI network identity. -/
structure Tenant where
  resources : List Resource
  cnciID : String
  cnciIP : String
  cnciMAC : String
  deriving Repr, DecidableEq

/-- `types.Instance`, restricted to the fields the embedded code reads.
`usage` models the Go `map[string]int` (absent keys read as 0, hence a
total function).  In the source `IPAddress` is the rendered string of the
allocated `net.IP`; the datastore parses it back on release, and rendering
round-trips, so the embedding carries the IP by its byte value directly. -/
structure Instance where
  tenantID : String
  id : String
  cnci : Bool
  ipAddress : List Nat
  macAddress : String
  usage : String → Int

/-- Modelled from the spec: the persistence/datastore collaborator state
(the datastore implementation is not under src/; §6 specifies
`AddInstance`, `GetTenant`, `AllocateTenantIP`/`ReleaseTenantIP`,
`AddTenantCNCI` as a narrow interface).  `tenants` is the tenant table,
`ipPool` the per-tenant pool of available IP addresses, `instances` the
persisted instance records, `cncis` the persisted (tenant, instance, MAC)
CNCI records. -/
structure DSState where
  tenants : String → Option Tenant
  ipPool : String → List (List Nat)
  instances : List (String × Instance)
  cncis : List (String × String × String)

/-- Modelled from the spec: `GetTenant` — look up a tenant record; fails
with a StorageError when the tenant is unknown. -/
def DSState.getTenant (s : DSState) (tenantID : String) : Except String Tenant :=
  match s.tenants tenantID with
  | some t => .ok t
  | none => .error "tenant not found"

/-- Modelled from the spec: `AllocateTenantIP` — reserve the next available
IP from the tenant's address pool; fails when the pool is empty. -/
def DSState.allocateTenantIP (s : DSState) (tenantID : String) :
    Except String (List Nat × DSState) :=
  match s.ipPool tenantID with
  | [] => .error "out of addresses"
  | ip :: rest =>
      .ok (ip, { s with ipPool := fun t => if t = tenantID then rest else s.ipPool t })

/-- Modelled from the spec: `ReleaseTenantIP` — return an IP address to the
tenant's address pool, making it observable as available again. -/
def DSState.releaseTenantIP (s : DSState) (tenantID : String) (ip : List Nat) : DSState :=
  { s with ipPool := fun t => if t = tenantID then ip :: s.ipPool t else s.ipPool t }

/-- Modelled from the spec: `AddInstance` — persist an instance record.
The operation may fail with a StorageError; `fails` is the failure oracle
for this call (spec §6: "All calls may fail with a generic StorageError"). -/
def DSState.addInstance (s : DSState) (i : Instance) (fails : Bool) :
    Except String DSState :=
  if fails then .error "storage error"
  else .ok { s with instances := (i.id, i) :: s.instances }

/-- Modelled from the spec: `AddTenantCNCI` — persist a tenant CNCI record;
may fail with a StorageError, `fails` is the failure oracle for this call. -/
def DSState.addTenantCNCI (s : DSState) (tenantID instanceID mac : String)
    (fails : Bool) : Except String DSState :=
  if fails then .error "storage error"
  else .ok { s with cncis := (tenantID, instanceID, mac) :: s.cncis }

/-- Modelled from the spec: deleting a persisted instance record (the
datastore's record-removal operation used by rollback). -/
def DSState.deleteInstanceRecord (s : DSState) (instanceID : String) : DSState :=
  { s with instances := s.instances.filter (fun p => p.1 ≠ instanceID) }

/-- Modelled from the spec: `Resource.OverLimit` lives in
`ciao-controller/types`, which is not under src/.  Spec §4.5: the quota
check passes when "all non-count resources: requested ≤ limit − usage;
count resource: usage + 1 ≤ limit", so a request is over the limit exactly
when the current usage plus the request exceeds the limit. -/
def Resource.OverLimit (r : Resource) (request : Int) : Bool :=
  r.usage + request > r.limit

/-- The `for _, res := range tenant.Resources` loop of `instance.Allowed`
(instance.go lines 120-131): returns `false` on the first over-limit
resource, `true` when the range is exhausted. -/
def allowedLoop (usage : String → Int) : List Resource → Bool
  | [] => true
  | res :: rest =>
      if res.rtype = 1 then
        if res.OverLimit 1 then false else allowedLoop usage rest
      else
        if res.OverLimit (usage res.rname) then false else allowedLoop usage rest

/-- `instance.Allowed` (instance.go lines 107-134): CNCI instances are
admitted unconditionally; otherwise the tenant is looked up (an error is
returned with `false` on lookup failure) and every tracked resource is
checked against its limit. -/
def Instance.Allowed (i : Instance) (s : DSState) : Except String Bool :=
  if i.cnci = true then .ok true
  else
    match s.getTenant i.tenantID with
    | .error e => .error e
    | .ok tenant => .ok (allowedLoop i.usage tenant.resources)

/-- `instance.Add` (instance.go lines 88-97): persists the instance record
(`AddInstance`) or, for a CNCI, the tenant CNCI record (`AddTenantCNCI`).
The source discards the result of either datastore call and returns `nil`
unconditionally; the returned `GoErr` is that unconditional `nil`, and the
state is left unchanged when the discarded call failed. -/
def Instance.Add (i : Instance) (s : DSState) (storeFails : Bool) :
    GoErr × DSState :=
  if i.cnci = false then
    match s.addInstance i storeFails with
    | .ok s' => (none, s')
    | .error _ => (none, s)
  else
    match s.addTenantCNCI i.tenantID i.id i.macAddress storeFails with
    | .ok s' => (none, s')
    | .error _ => (none, s)

/-- `instance.Clean` (instance.go lines 99-105): for a non-CNCI instance the
allocated tenant IP is released; for a CNCI nothing is done.  Returns `nil`. -/
def Instance.Clean (i : Instance) (s : DSState) : GoErr × DSState :=
  if i.cnci = false then
    (none, s.releaseTenantIP i.tenantID i.ipAddress)
  else
    (none, s)

/-- Modelled from the spec: the controller's StartFailure rollback (spec
§4.5 Pending → Failed; the handler is not under src/) — the allocated
network identity and persisted state are rolled back by invoking the
instance's `Clean` (from the source) and removing the persisted record. -/
def startFailureRollback (i : Instance) (s : DSState) : DSState :=
  let s' := (i.Clean s).2
  s'.deleteInstanceRecord i.id

/-! ## The testutil SSNTP client's result-correlation tables

`SsntpTestClient` keeps four Go maps from operation code to a waiter
channel (`CmdChans`, `EventChans`, `ErrorChans`, `StatusChans`), each with
identical `Add*Chan` / `SendResultAndDel*Chan` code.  We embed the common
structure once, generic in the key type `κ` (instantiated per message
kind).  A channel is identified by the order of its `make(chan Result)`
allocation (`nextChan` freshness counter); a send on a channel is recorded
in `delivered` as a `(channel, result)` pair, newest first. -/

/-- `testutil.Result`, restricted to the fields the embedded code touches. -/
structure Result where
  err : GoErr := none
  instanceUUID : String := ""
  tenantUUID : String := ""
  nodeUUID : String := ""
  cnci : Bool := false
  deriving Repr, DecidableEq

/-- State of one waiter table of `SsntpTestClient`: the Go map (`table`),
the channel-allocation freshness counter, and the log of results sent on
channels. -/
structure ChanTable (κ : Type) where
  table : κ → Option Nat
  nextChan : Nat
  delivered : List (Nat × Result)

/-- `SsntpTestClient.AddCmdChan` (and its Event/Error/Status twins):
allocate a fresh channel, store it in the map under `k` (overwriting any
prior entry, as Go map assignment does), and hand the channel back. -/
def ChanTable.addChan [DecidableEq κ] (s : ChanTable κ) (k : κ) :
    Nat × ChanTable κ :=
  (s.nextChan,
   { table := fun x => if x = k then some s.nextChan else s.table x
     nextChan := s.nextChan + 1
     delivered := s.delivered })

/-- `SsntpTestClient.SendResultAndDelCmdChan` (and its Event/Error/Status
twins): look the key up in the map; when present, delete the entry and send
the result on the registered channel (then close it); when absent, do
nothing. -/
def ChanTable.sendResultAndDel [DecidableEq κ] (s : ChanTable κ) (k : κ)
    (r : Result) : ChanTable κ :=
  match s.table k with
  | some c =>
      { table := fun x => if x = k then none else s.table x
        nextChan := s.nextChan
        delivered := (c, r) :: s.delivered }
  | none => s

/-- Run a sequence of `sendResultAndDel` resolutions against a table. -/
def ChanTable.runResolves [DecidableEq κ] (s : ChanTable κ) :
    List (κ × Result) → ChanTable κ
  | [] => s
  | (k, r) :: rest => (s.sendResultAndDel k r).runResolves rest

/-- The results delivered on channel `c`, newest first. -/
def ChanTable.deliveredTo (s : ChanTable κ) (c : Nat) : List Result :=
  (s.delivered.filter (fun p => p.1 = c)).map Prod.snd

/-- Well-formedness: every channel stored in the map was allocated by the
freshness counter. -/
def ChanTable.WF (s : ChanTable κ) : Prop :=
  ∀ k c, s.table k = some c → c < s.nextChan

/-! ## The testutil client's bounded waits (Get*ChanResult)

Each `Get*ChanResult` is a `select` between a receive on the waiter channel
and a `time.After` timer.  We model the channel side by the (optional) time
at which a result becomes available: `none` means no result ever arrives,
`some (t, r)` means result `r` is receivable `t` seconds after the wait
starts.  The select takes the channel arm exactly when the result arrives
strictly before the timer fires. -/

/-- Timeout, in seconds, of `GetCmdChanResult` (`time.After(5 * time.Second)`). -/
def cmdChanTimeout : Nat := 5

/-- Timeout, in seconds, of `GetEventChanResult` (`time.After(20 * time.Second)`). -/
def eventChanTimeout : Nat := 20

/-- Timeout, in seconds, of `GetErrorChanResult` (`time.After(20 * time.Second)`). -/
def errorChanTimeout : Nat := 20

/-- Timeout, in seconds, of `GetStatusChanResult` (`time.After(5 * time.Second)`). -/
def statusChanTimeout : Nat := 5

/-- Outcome of a `Get*ChanResult` wait: the `(result, err)` pair it
returns.  On the channel arm the result is returned, with a non-nil
client error exactly when `result.Err` was non-nil; on the timer arm a
Timeout error is returned (with the zero result). -/
inductive WaitOutcome
  | received (r : Result) (clientErr : GoErr)
  | timeout
  deriving Repr, DecidableEq

/-- The common `select` body of the four `Get*ChanResult` functions, with
the timeout in seconds as a parameter. -/
def awaitChanResult (timeoutSec : Nat) (arrival : Option (Nat × Result)) :
    WaitOutcome :=
  match arrival with
  | some (t, r) =>
      if t < timeoutSec then
        .received r (r.err.map (fun e => "Client error: " ++ e))
      else .timeout
  | none => .timeout

/-- `SsntpTestClient.GetCmdChanResult` (5-second timeout). -/
def GetCmdChanResult (arrival : Option (Nat × Result)) : WaitOutcome :=
  awaitChanResult cmdChanTimeout arrival

/-- `SsntpTestClient.GetEventChanResult` (20-second timeout). -/
def GetEventChanResult (arrival : Option (Nat × Result)) : WaitOutcome :=
  awaitChanResult eventChanTimeout arrival

/-- `SsntpTestClient.GetErrorChanResult` (20-second timeout). -/
def GetErrorChanResult (arrival : Option (Nat × Result)) : WaitOutcome :=
  awaitChanResult errorChanTimeout arrival

/-- `SsntpTestClient.GetStatusChanResult` (5-second timeout). -/
def GetStatusChanResult (arrival : Option (Nat × Result)) : WaitOutcome :=
  awaitChanResult statusChanTimeout arrival

/-! ## The testutil agent's Start handling -/

/-- The `payloads` instance states the embedded handlers write
(`payloads.Running` / `payloads.Exited`). -/
inductive InstState
  | running
  | exited
  deriving Repr, DecidableEq

/-- `payloads.InstanceStat`, restricted to the fields `handleStart` sets
(the usage figures are all set to zero there). -/
structure InstanceStat where
  instanceUUID : String
  state : InstState
  memoryUsageMB : Int := 0
  diskUsageMB : Int := 0
  cpuUsage : Int := 0
  deriving Repr, DecidableEq

/-- The `ssntp.Error` codes sent by the embedded handlers. -/
inductive SsntpErrorKind
  | startFailure
  | stopFailure
  | restartFailure
  | deleteFailure
  deriving Repr, DecidableEq

/-- `payloads.ErrorStartFailure`: the payload of a StartFailure error frame. -/
structure ErrorStartFailure where
  instanceUUID : String
  reason : String
  deriving Repr, DecidableEq

/-- `testutil.SsntpTestClient`, restricted to the state `handleStart` and
`sendStartFailure` touch.  `sentErrors` is the log of error frames pushed
through `Ssntp.SendError`, newest first; `errorChans` is the `ErrorChans`
waiter table. -/
structure TestClient where
  uuid : String
  isNetAgent : Bool
  startFail : Bool
  startFailReason : String
  instances : List InstanceStat
  errorChans : ChanTable SsntpErrorKind
  sentErrors : List (SsntpErrorKind × ErrorStartFailure)

/-- `SsntpTestClient.sendStartFailure` (part_002 lines 1184-1199): marshal
an `ErrorStartFailure` payload and push a StartFailure error frame. -/
def TestClient.sendStartFailure (client : TestClient) (instanceUUID reason : String) :
    TestClient :=
  { client with
    sentErrors := (SsntpErrorKind.startFailure, ⟨instanceUUID, reason⟩) :: client.sentErrors }

/-- The fields of `payloads.Start` read by `handleStart`.  A payload that
fails `yaml.Unmarshal` is modelled as `none` at the call site. -/
structure StartCmd where
  instanceUUID : String
  tenantUUID : String
  deriving Repr, DecidableEq

/-- `SsntpTestClient.handleStart` (part_002 lines 825-862): on unmarshal
failure return the error; otherwise build the result (instance, tenant,
node UUIDs; CNCI flag for a net-agent role).  When the client is configured
to fail Starts, set the result error to the configured reason, send a
StartFailure error frame, resolve the StartFailure error waiter, and return
without touching `instances`; otherwise append a Running `InstanceStat` to
the active instance set. -/
def TestClient.handleStart (client : TestClient) (payload : Option StartCmd) :
    Result × TestClient :=
  match payload with
  | none => ({ err := some "unmarshal error" }, client)
  | some cmd =>
      let result : Result :=
        { instanceUUID := cmd.instanceUUID
          tenantUUID := cmd.tenantUUID
          nodeUUID := client.uuid
          cnci := client.isNetAgent }
      if client.startFail = true then
        let result := { result with err := some client.startFailReason }
        let client := client.sendStartFailure cmd.instanceUUID client.startFailReason
        let client :=
          { client with
            errorChans := client.errorChans.sendResultAndDel .startFailure result }
        (result, client)
      else
        let istat : InstanceStat := { instanceUUID := cmd.instanceUUID, state := .running }
        (result, { client with instances := client.instances ++ [istat] })

/-- A batch launch as driven by the test harness: the Starts of the batch
are handled in order, each entry carrying the agent's configured failure
flag for that Start (`client.StartFail` is toggled between commands). -/
def TestClient.runStartBatch (client : TestClient) :
    List (Bool × StartCmd) → TestClient
  | [] => client
  | (fail, cmd) :: rest =>
      TestClient.runStartBatch
        (({ client with startFail := fail }).handleStart (some cmd)).2 rest

/-! ## Compute API handlers: tenant-ownership checks -/

/-- HTTP status classes written by the embedded handlers through
`returnErrorCode` / `WriteHeader`. -/
inductive HttpResp
  | unauthorized
  | notFound
  | badRequest
  | serverError
  | serviceUnavailable
  | okJSON
  | accepted
  deriving Repr, DecidableEq

/-- The controller lifecycle operations a handler can invoke
(`context.restartInstance`, `context.stopInstance`, `context.deleteInstance`). -/
inductive LifecycleOp
  | restartOp
  | stopOp
  | deleteOp
  deriving Repr, DecidableEq

/-- Modelled from the spec: `GetInstance` — look up a persisted instance
record by ID; fails with a StorageError when absent. -/
def DSState.getInstance (s : DSState) (instanceID : String) : Except String Instance :=
  match s.instances.find? (fun p => p.1 = instanceID) with
  | some p => .ok p.2
  | none => .error "instance not found"

/-- `strings.Contains`, via `String.splitOn`: `sub` occurs in `s` exactly
when splitting on it yields at least two pieces (for non-empty `sub`). -/
def strContains (s sub : String) : Bool :=
  (s.splitOn sub).length ≥ 2

/-- `showServerDetails` (part_001 lines 489-527), as (response, lifecycle
operations invoked): token check, instance lookup (404 when missing), the
tenant-ownership check (404 when the instance belongs to another tenant),
then the details are rendered.  The rendering tail (`instanceToServer` and
JSON marshalling, whose own failures 404/500) invokes no lifecycle
operation and is modelled as the success response. -/
def showServerDetails (tokenValid : Bool) (s : DSState) (tenant instanceID : String) :
    HttpResp × List (LifecycleOp × String) :=
  if tokenValid = false then (.unauthorized, [])
  else
    match s.getInstance instanceID with
    | .error _ => (.notFound, [])
    | .ok inst =>
        if inst.tenantID ≠ tenant then (.notFound, [])
        else (.okJSON, [])

/-- `deleteServer` (part_001 lines 537-568): token check, instance lookup,
tenant-ownership check, then `context.deleteInstance` (500 on its failure,
202 on success; the invocation itself is what the claim observes, so the
embedded response is the success one). -/
def deleteServer (tokenValid : Bool) (s : DSState) (tenant instanceID : String) :
    HttpResp × List (LifecycleOp × String) :=
  if tokenValid = false then (.unauthorized, [])
  else
    match s.getInstance instanceID with
    | .error _ => (.notFound, [])
    | .ok inst =>
        if inst.tenantID ≠ tenant then (.notFound, [])
        else (.accepted, [(.deleteOp, instanceID)])

/-- The action-string dispatch of `tenantServersAction` (part_001 lines
1090-1102): os-start → restart, os-stop → stop, os-delete → delete,
anything else → 503. -/
def actionOf (action : String) : Option LifecycleOp :=
  if action = "os-start" then some .restartOp
  else if action = "os-stop" then some .stopOp
  else if action = "os-delete" then some .deleteOp
  else none

/-- The explicit server-ID loop of `tenantServersAction` (part_001 lines
1104-1119): for each ID, look the instance up (404 aborts the whole
request), check tenant ownership (404 aborts), then invoke the action
function on the ID and continue; 202 when the loop completes. -/
def serverIDsLoop (s : DSState) (tenant : String) (op : LifecycleOp) :
    List String → HttpResp × List (LifecycleOp × String)
  | [] => (.accepted, [])
  | instanceID :: rest =>
      match s.getInstance instanceID with
      | .error _ => (.notFound, [])
      | .ok inst =>
          if inst.tenantID ≠ tenant then (.notFound, [])
          else
            let tail := serverIDsLoop s tenant op rest
            (tail.1, (op, instanceID) :: tail.2)

/-- `tenantServersAction` (part_001 lines 1062-1138), embedded for the
explicit server-ID-list branch (`len(servers.ServerIDs) > 0`), the branch
the claim concerns.  The act-on-all-tenant-instances branch (empty ID
list, with its status filter) is not embedded. -/
def tenantServersAction (tokenValid : Bool) (s : DSState) (tenant action : String)
    (serverIDs : List String) : HttpResp × List (LifecycleOp × String) :=
  if tokenValid = false then (.unauthorized, [])
  else
    match actionOf action with
    | none => (.serviceUnavailable, [])
    | some op => serverIDsLoop s tenant op serverIDs

/-- `serverAction` (part_001 lines 1148-1205): token check, instance
lookup, tenant-ownership check — all before the request body is read —
then the body is scanned for os-start/os-stop and the corresponding
lifecycle operation invoked (500 on its failure, 202 on success; the
success response is embedded), or 503 for an unsupported action. -/
def serverAction (tokenValid : Bool) (s : DSState) (tenant instanceID body : String) :
    HttpResp × List (LifecycleOp × String) :=
  if tokenValid = false then (.unauthorized, [])
  else
    match s.getInstance instanceID with
    | .error _ => (.notFound, [])
    | .ok inst =>
        if inst.tenantID ≠ tenant then (.notFound, [])
        else if strContains body "os-start" then (.accepted, [(.restartOp, instanceID)])
        else if strContains body "os-stop" then (.accepted, [(.stopOp, instanceID)])
        else (.serviceUnavailable, [])

/-! ## Tenant hardware address derivation -/

/-- `net.IP.To4` of the Go standard library, over an IP as its byte
sequence: a 4-byte address is returned as is; a 16-byte IPv4-mapped
address (ten zero bytes then 0xff 0xff) is returned as its last 4 bytes;
anything else has no IPv4 form (`nil`). -/
def ipTo4 (ip : List Nat) : Option (List Nat) :=
  if ip.length = 4 then some ip
  else if ip.length = 16 ∧ ip.take 10 = List.replicate 10 0 ∧
      ip.get? 10 = some 255 ∧ ip.get? 11 = some 255 then
    some (ip.drop 12)
  else none

/-- `newTenantHardwareAddr` (instance.go lines 294-301): a 6-byte buffer is
zero-allocated, its first byte is or-ed with 2 (locally administered), its
second set to 0, and the IPv4 form of the address is copied into bytes
2..6 (`copy` from a `nil` slice copies nothing, leaving the zeros). -/
def newTenantHardwareAddr (ip : List Nat) : List Nat :=
  let buf : List Nat := [2, 0, 0, 0, 0, 0]
  match ipTo4 ip with
  | some ipBytes => buf.take 2 ++ ipBytes
  | none => buf

/-! ## Instance configuration (newConfig) -/

/-- `payloads.RequestedResource`, restricted to the fields the embedded
code reads. -/
structure RequestedResource where
  rtype : String
  value : Int
  deriving Repr, DecidableEq

/-- `payloads.NetworkNode`, the resource type marking a CNCI workload. -/
def networkNode : String := "network_node"

/-- `types.Workload`, restricted to the fields the embedded code reads. -/
structure Workload where
  id : String
  imageID : String
  fwType : String
  defaults : List RequestedResource
  deriving Repr, DecidableEq

/-- `isCNCIWorkload` (instance.go lines 48-56): a workload is a CNCI
workload when any of its default resources has the NetworkNode type. -/
def isCNCIWorkload (wl : Workload) : Bool :=
  wl.defaults.any (fun r => r.rtype = networkNode)

/-- The `config` struct of instance.go, restricted to the identity fields
(`cnci`, `mac`, `ip`).  The `sc` Start payload and the serialized cloud-init
document (`config.config`) are built with external yaml/json marshalling
and are not embedded; no claim concerns them.  A Go empty-string IP is the
empty byte list. -/
structure Config where
  cnci : Bool
  mac : String
  ip : List Nat
  deriving Repr, DecidableEq

/-- `net.HardwareAddr.String`: colon-separated lowercase two-digit hex
bytes. -/
def macString (mac : List Nat) : String :=
  String.intercalate ":"
    (mac.map (fun b =>
      let s := String.mk (Nat.toDigits 16 b)
      if s.length = 1 then "0" ++ s else s))

/-- `newConfig` (instance.go lines 182-292), restricted to the tenant
lookup, the CNCI branch and the network-identity allocation.  For a
non-CNCI workload a tenant IP is allocated (the allocation error is
returned) and the MAC is derived from it; for a CNCI workload no tenant IP
is allocated and the VNIC MAC is bound to the tenant's existing
concentrator MAC.  The source merely logs a failed tenant lookup and then
dereferences the nil tenant; the embedding surfaces that lookup failure as
an error, and theorems about `newConfig` assume the lookup succeeds.  The
storage attachment, user data, subnet/concentrator payload fields and the
yaml/json serialization are not embedded; no claim concerns them. -/
def newConfig (s : DSState) (wl : Workload) (instanceID tenantID : String) :
    Except String (Config × DSState) :=
  match s.getTenant tenantID with
  | .error e => .error e
  | .ok tenant =>
      if isCNCIWorkload wl = false then
        match s.allocateTenantIP tenantID with
        | .error e => .error e
        | .ok (ipAddress, s') =>
            .ok ({ cnci := false
                   mac := macString (newTenantHardwareAddr ipAddress)
                   ip := ipAddress }, s')
      else
        .ok ({ cnci := true, mac := tenant.cnciMAC, ip := [] }, s)

/-!
# Theorems
-/

/-- Failing the `OverLimit` test is exactly exceeding the remaining quota. -/
lemma overLimit_false_iff (r : Resource) (q : Int) :
    (r.OverLimit q = false) ↔ q ≤ r.limit - r.usage := by
  simp only [Resource.OverLimit, decide_eq_false_iff_not, not_lt]
  omega

/-- Passing the `OverLimit` test with request 1 is exactly
`usage + 1 ≤ limit`. -/
lemma overLimit_one_false_iff (r : Resource) :
    (r.OverLimit 1 = false) ↔ r.usage + 1 ≤ r.limit := by
  simp only [Resource.OverLimit, decide_eq_false_iff_not, not_lt]

/-- The admission loop accepts exactly when every tracked resource is
within quota: the count resource by the would-be count, every other
resource by the instance's requested quantity. -/
lemma allowedLoop_eq_true_iff (usage : String → Int) (rs : List Resource) :
    allowedLoop usage rs = true ↔
      ∀ res ∈ rs,
        (res.rtype = 1 → res.usage + 1 ≤ res.limit) ∧
        (res.rtype ≠ 1 → usage res.rname ≤ res.limit - res.usage) := by
  induction rs with
  | nil => simp [allowedLoop]
  | cons res rest ih =>
      by_cases h1 : res.rtype = 1
      · by_cases h2 : res.OverLimit 1
        · simp only [allowedLoop, h1, if_pos, if_true, h2, ite_true]
          constructor
          · intro h; exact absurd h (by simp)
          · intro h
            have := (h res (by simp)).1 h1
            rw [← overLimit_one_false_iff] at this
            rw [h2] at this
            exact absurd this (by simp)
        · rw [Bool.not_eq_true] at h2
          simp only [allowedLoop, h1, ite_true, h2, Bool.false_eq_true, if_false,
            List.mem_cons, forall_eq_or_imp, ih]
          constructor
          · intro h
            exact ⟨⟨fun _ => (overLimit_one_false_iff res).mp h2, fun hn => absurd rfl hn⟩, h⟩
          · intro h; exact h.2
      · by_cases h2 : res.OverLimit (usage res.rname)
        · simp only [allowedLoop, h1, ite_false, if_false, h2, ite_true]
          constructor
          · intro h; exact absurd h (by simp)
          · intro h
            have := (h res (by simp)).2 h1
            rw [← overLimit_false_iff] at this
            rw [h2] at this
            exact absurd this (by simp)
        · rw [Bool.not_eq_true] at h2
          simp only [allowedLoop, h1, ite_false, h2, Bool.false_eq_true, if_false,
            List.mem_cons, forall_eq_or_imp, ih]
          constructor
          · intro h
            exact ⟨⟨fun he => he.elim, fun _ => (overLimit_false_iff res _).mp h2⟩, h⟩
          · intro h; exact h.2

/-- C1: for a non-CNCI instance the admission check `instance.Allowed`
succeeds if and only if every resource tracked by the tenant is within
quota — the dedicated instance-count resource (`Rtype == 1`) by
`usage + 1 ≤ limit`, every other resource by
`requested ≤ limit − usage`; in particular a request exactly at the
remaining quota is admitted and a request one unit above it is denied. -/
theorem allowed_iff_within_quota :
    (∀ (s : DSState) (i : Instance) (t : Tenant), i.cnci = false →
      s.tenants i.tenantID = some t →
      (i.Allowed s = .ok true ↔
        ∀ res ∈ t.resources,
          (res.rtype = 1 → res.usage + 1 ≤ res.limit) ∧
          (res.rtype ≠ 1 → i.usage res.rname ≤ res.limit - res.usage))) ∧
    (∀ (s : DSState) (i : Instance) (t : Tenant) (res : Resource), i.cnci = false →
      s.tenants i.tenantID = some t → t.resources = [res] → res.rtype ≠ 1 →
      (i.usage res.rname = res.limit - res.usage → i.Allowed s = .ok true) ∧
      (i.usage res.rname = res.limit - res.usage + 1 → i.Allowed s = .ok false)) := by
  have hmain : ∀ (s : DSState) (i : Instance) (t : Tenant), i.cnci = false →
      s.tenants i.tenantID = some t →
      (i.Allowed s = .ok true ↔
        ∀ res ∈ t.resources,
          (res.rtype = 1 → res.usage + 1 ≤ res.limit) ∧
          (res.rtype ≠ 1 → i.usage res.rname ≤ res.limit - res.usage)) := by
    intro s i t hcnci ht
    rw [Instance.Allowed, if_neg (by simp [hcnci]), DSState.getTenant, ht]
    simp only [Except.ok.injEq]
    exact allowedLoop_eq_true_iff i.usage t.resources
  refine ⟨hmain, ?_⟩
  intro s i t res hcnci ht hres hrt
  constructor
  · intro hexact
    rw [hmain s i t hcnci ht, hres]
    intro r hr
    rw [List.mem_singleton] at hr
    subst hr
    exact ⟨fun h => absurd h hrt, fun _ => le_of_eq hexact⟩
  · intro hover
    rw [Instance.Allowed, if_neg (by simp [hcnci]), DSState.getTenant, ht]
    simp only [Except.ok.injEq]
    rw [hres, allowedLoop]
    rw [if_neg hrt, if_pos]
    rw [Resource.OverLimit, decide_eq_true_iff, hover]
    omega

/-- C1 witness: a tenant with one non-count resource of limit 10 and usage
3 admits an instance requesting exactly 7 and denies one requesting 8. -/
theorem allowed_iff_within_quota_witness :
    Instance.Allowed ⟨"t1", "i1", false, [], "", fun _ => 7⟩
      ⟨fun _ => some ⟨[⟨2, "mem", 10, 3⟩], "", "", ""⟩, fun _ => [], [], []⟩ = .ok true ∧
    Instance.Allowed ⟨"t1", "i1", false, [], "", fun _ => 8⟩
      ⟨fun _ => some ⟨[⟨2, "mem", 10, 3⟩], "", "", ""⟩, fun _ => [], [], []⟩ = .ok false := by
  constructor
  · exact (allowed_iff_within_quota.2 _ _ ⟨[⟨2, "mem", 10, 3⟩], "", "", ""⟩ ⟨2, "mem", 10, 3⟩
      rfl rfl rfl (by decide)).1 (by decide)
  · exact (allowed_iff_within_quota.2 _ _ ⟨[⟨2, "mem", 10, 3⟩], "", "", ""⟩ ⟨2, "mem", 10, 3⟩
      rfl rfl rfl (by decide)).2 (by decide)

/-- C3 (code bug evidence): `instance.Add` discards the result of the
underlying persistence call.  At a concrete non-CNCI instance whose
`AddInstance` call fails with a StorageError, `Add` still returns `nil`
(no error) and the datastore state is left unchanged — the failure is
neither surfaced nor persisted, contradicting the spec's requirement that
StorageErrors surface to the caller of the lifecycle operation. -/
theorem instanceAdd_swallows_storage_error :
    DSState.addInstance ⟨fun _ => none, fun _ => [], [], []⟩
        ⟨"tenant0", "instance0", false, [10, 0, 0, 2], "", fun _ => 0⟩ true =
      .error "storage error" ∧
    Instance.Add ⟨"tenant0", "instance0", false, [10, 0, 0, 2], "", fun _ => 0⟩
        ⟨fun _ => none, fun _ => [], [], []⟩ true =
      (none, ⟨fun _ => none, fun _ => [], [], []⟩) := by
  exact ⟨rfl, rfl⟩

/-- C4: CNCI instances bypass the per-tenant machinery — `Allowed` returns
true for every datastore state (the tenant's quota resources are never
consulted), `newConfig` for a CNCI workload allocates no tenant IP
(the datastore state, hence the address pool, is returned unchanged) and
binds the VNIC MAC to the tenant's existing concentrator MAC, and `Clean`
releases no tenant IP (the state is returned unchanged). -/
theorem cnci_bypasses_tenant_machinery :
    (∀ (s : DSState) (i : Instance), i.cnci = true → i.Allowed s = .ok true) ∧
    (∀ (s : DSState) (wl : Workload) (instanceID tenantID : String) (tenant : Tenant),
      s.tenants tenantID = some tenant → isCNCIWorkload wl = true →
      newConfig s wl instanceID tenantID =
        .ok ({ cnci := true, mac := tenant.cnciMAC, ip := [] }, s)) ∧
    (∀ (s : DSState) (i : Instance), i.cnci = true → i.Clean s = (none, s)) := by
  refine ⟨?_, ?_, ?_⟩
  · intro s i h
    rw [Instance.Allowed, if_pos h]
  · intro s wl instanceID tenantID tenant ht hwl
    rw [newConfig, DSState.getTenant, ht]
    simp [hwl]
  · intro s i h
    rw [Instance.Clean, if_neg (by simp [h])]

/-- C4 witness: a concrete CNCI instance and workload — admission succeeds
on an empty datastore, configuration binds to the tenant's concentrator
MAC without touching the pool, and cleanup leaves the state unchanged. -/
theorem cnci_bypasses_tenant_machinery_witness :
    Instance.Allowed ⟨"t1", "c1", true, [], "", fun _ => 0⟩
      ⟨fun _ => none, fun _ => [], [], []⟩ = .ok true ∧
    newConfig ⟨fun _ => some ⟨[], "cnciid", "10.0.0.9", "02:00:aa:bb:cc:dd"⟩,
        fun _ => [[10, 0, 0, 7]], [], []⟩
      ⟨"w1", "img", "efi", [⟨networkNode, 1⟩]⟩ "c1" "t1" =
      .ok ({ cnci := true, mac := "02:00:aa:bb:cc:dd", ip := [] },
        ⟨fun _ => some ⟨[], "cnciid", "10.0.0.9", "02:00:aa:bb:cc:dd"⟩,
          fun _ => [[10, 0, 0, 7]], [], []⟩) ∧
    Instance.Clean ⟨"t1", "c1", true, [], "", fun _ => 0⟩
        ⟨fun _ => none, fun _ => [], [], []⟩ =
      (none, ⟨fun _ => none, fun _ => [], [], []⟩) := by
  refine ⟨?_, ?_, ?_⟩
  · exact cnci_bypasses_tenant_machinery.1 _ _ rfl
  · exact cnci_bypasses_tenant_machinery.2.1 _ _ "c1" "t1"
      ⟨[], "cnciid", "10.0.0.9", "02:00:aa:bb:cc:dd"⟩ rfl (by decide)
  · exact cnci_bypasses_tenant_machinery.2.2 _ _ rfl

/-- C5: after a Start failure for a non-CNCI instance, `Clean` returns the
instance's IP to the tenant's address pool — the IP is observable as
available again — and the spec-modelled StartFailure rollback, which runs
`Clean` and deletes the persisted record, leaves no record of the instance
and the same released IP in the pool. -/
theorem clean_releases_ip_and_rollback_removes_record :
    ∀ (s : DSState) (i : Instance), i.cnci = false →
      ((i.Clean s).1 = none ∧
       (i.Clean s).2.ipPool i.tenantID = i.ipAddress :: s.ipPool i.tenantID ∧
       i.ipAddress ∈ (i.Clean s).2.ipPool i.tenantID) ∧
      ((∀ r0 ∈ (startFailureRollback i s).instances, r0.1 ≠ i.id) ∧
       (startFailureRollback i s).ipPool i.tenantID =
         i.ipAddress :: s.ipPool i.tenantID) := by
  intro s i h
  have hclean : i.Clean s = (none, s.releaseTenantIP i.tenantID i.ipAddress) := by
    rw [Instance.Clean, if_pos h]
  refine ⟨⟨by rw [hclean], ?_, ?_⟩, ?_, ?_⟩
  · rw [hclean]; simp [DSState.releaseTenantIP]
  · rw [hclean]; simp [DSState.releaseTenantIP]
  · intro r0 hrec
    rw [startFailureRollback] at hrec
    simp only [DSState.deleteInstanceRecord, List.mem_filter, decide_eq_true_eq] at hrec
    exact hrec.2
  · rw [startFailureRollback, hclean]
    simp [DSState.deleteInstanceRecord, DSState.releaseTenantIP]

/-- C5 witness: a concrete non-CNCI instance with IP 10.0.0.2 and a
persisted record — after `Clean` the IP is back in the tenant pool, and
after the rollback the record is gone. -/
theorem clean_releases_ip_witness :
    [10, 0, 0, 2] ∈
      ((Instance.Clean ⟨"t1", "i1", false, [10, 0, 0, 2], "", fun _ => 0⟩
        ⟨fun _ => none, fun _ => [], [("i1",
          ⟨"t1", "i1", false, [10, 0, 0, 2], "", fun _ => 0⟩)], []⟩).2.ipPool "t1") ∧
    ((startFailureRollback ⟨"t1", "i1", false, [10, 0, 0, 2], "", fun _ => 0⟩
        ⟨fun _ => none, fun _ => [], [("i1",
          ⟨"t1", "i1", false, [10, 0, 0, 2], "", fun _ => 0⟩)], []⟩).instances.length = 0) := by
  constructor
  · exact (clean_releases_ip_and_rollback_removes_record _ _ rfl).1.2.2
  · rfl

/-- C10: `newTenantHardwareAddr` is a deterministic function of the IP —
for every address with an IPv4 form it yields the 6-byte address
`02:00` followed by the four IPv4 bytes (so distinct IPv4 addresses yield
distinct MACs), and every address without an IPv4 form yields the constant
`02:00:00:00:00:00`. -/
theorem newTenantHardwareAddr_spec :
    (∀ ip b, ipTo4 ip = some b →
      newTenantHardwareAddr ip = 2 :: 0 :: b ∧ b.length = 4) ∧
    (∀ ip1 ip2 b1 b2, ipTo4 ip1 = some b1 → ipTo4 ip2 = some b2 → b1 ≠ b2 →
      newTenantHardwareAddr ip1 ≠ newTenantHardwareAddr ip2) ∧
    (∀ ip, ipTo4 ip = none → newTenantHardwareAddr ip = [2, 0, 0, 0, 0, 0]) := by
  have hsome : ∀ ip b, ipTo4 ip = some b →
      newTenantHardwareAddr ip = 2 :: 0 :: b ∧ b.length = 4 := by
    intro ip b h
    refine ⟨by simp [newTenantHardwareAddr, h], ?_⟩
    rw [ipTo4] at h
    split_ifs at h with h1 h2
    · injection h with h'
      rw [← h']
      exact h1
    · injection h with h'
      rw [← h']
      simp [List.length_drop, h2.1]
  refine ⟨hsome, ?_, ?_⟩
  · intro ip1 ip2 b1 b2 h1 h2 hne
    rw [(hsome ip1 b1 h1).1, (hsome ip2 b2 h2).1]
    intro h
    apply hne
    simpa using h
  · intro ip h
    simp [newTenantHardwareAddr, h]

/-- C10 witness: 10.0.0.2 maps to 02:00:0a:00:00:02 (as bytes), distinct
IPv4 addresses map to distinct MACs, and a 2-byte (non-IPv4) address maps
to the constant zero-tail MAC. -/
theorem newTenantHardwareAddr_spec_witness :
    newTenantHardwareAddr [10, 0, 0, 2] = [2, 0, 10, 0, 0, 2] ∧
    newTenantHardwareAddr [10, 0, 0, 2] ≠ newTenantHardwareAddr [10, 0, 0, 3] ∧
    newTenantHardwareAddr [0, 1] = [2, 0, 0, 0, 0, 0] := by
  refine ⟨?_, ?_, ?_⟩
  · exact (newTenantHardwareAddr_spec.1 [10, 0, 0, 2] [10, 0, 0, 2] (by decide)).1
  · exact newTenantHardwareAddr_spec.2.1 [10, 0, 0, 2] [10, 0, 0, 3]
      [10, 0, 0, 2] [10, 0, 0, 3] (by decide) (by decide) (by decide)
  · exact newTenantHardwareAddr_spec.2.2 [0, 1] (by decide)

/-- C6: every correlated-result wait is bounded by an operation-kind
specific timeout — the command and status timeouts (5 s) are strictly
shorter than the event and error timeouts (20 s) — and a wait whose
result never arrives, or arrives only at or after its timeout, returns
the timeout outcome rather than blocking forever. -/
theorem chan_waits_bounded_and_kind_specific :
    (cmdChanTimeout < eventChanTimeout ∧ cmdChanTimeout < errorChanTimeout ∧
     statusChanTimeout < eventChanTimeout ∧ statusChanTimeout < errorChanTimeout) ∧
    (GetCmdChanResult none = .timeout ∧ GetEventChanResult none = .timeout ∧
     GetErrorChanResult none = .timeout ∧ GetStatusChanResult none = .timeout) ∧
    (∀ t r, cmdChanTimeout ≤ t → GetCmdChanResult (some (t, r)) = .timeout) ∧
    (∀ t r, eventChanTimeout ≤ t → GetEventChanResult (some (t, r)) = .timeout) ∧
    (∀ t r, errorChanTimeout ≤ t → GetErrorChanResult (some (t, r)) = .timeout) ∧
    (∀ t r, statusChanTimeout ≤ t → GetStatusChanResult (some (t, r)) = .timeout) := by
  refine ⟨by decide, ⟨rfl, rfl, rfl, rfl⟩, ?_, ?_, ?_, ?_⟩ <;>
    · intro t r h
      have hn : ¬ t < _ := Nat.not_lt_of_le h
      simp only [GetCmdChanResult, GetEventChanResult, GetErrorChanResult,
        GetStatusChanResult, awaitChanResult, hn, if_false]

/-- C6 witness: a result arriving at the 5-second mark of a command wait is
a timeout, as is one arriving at the 20-second mark of an event wait. -/
theorem chan_waits_bounded_witness :
    GetCmdChanResult (some (5, {})) = .timeout ∧
    GetEventChanResult (some (20, {})) = .timeout ∧
    GetCmdChanResult none = .timeout := by
  refine ⟨?_, ?_, ?_⟩
  · exact chan_waits_bounded_and_kind_specific.2.2.1 5 {} (by decide)
  · exact chan_waits_bounded_and_kind_specific.2.2.2.1 20 {} (by decide)
  · exact chan_waits_bounded_and_kind_specific.2.1.1

/-- C2: resolving a key of a waiter table removes the table entry and
delivers the result to exactly the one registered waiter; resolving a key
with no registered waiter — including resolving the same key a second
time — is a no-op, so at most one result is ever delivered per
registration. -/
theorem sendResultAndDel_resolves_exactly_once :
    ∀ (κ : Type) (inst : DecidableEq κ) (s : ChanTable κ) (k : κ) (r r' : Result),
      (∀ c, s.table k = some c →
        (s.sendResultAndDel k r).table k = none ∧
        (s.sendResultAndDel k r).delivered = (c, r) :: s.delivered) ∧
      (s.table k = none → s.sendResultAndDel k r = s) ∧
      (s.sendResultAndDel k r).sendResultAndDel k r' = s.sendResultAndDel k r := by
  intro κ inst s k r r'
  refine ⟨?_, ?_, ?_⟩
  · intro c hc
    rw [ChanTable.sendResultAndDel, hc]
    exact ⟨by simp, rfl⟩
  · intro hc
    rw [ChanTable.sendResultAndDel, hc]
  · match hc : s.table k with
    | some c =>
        have h1 : (s.sendResultAndDel k r).table k = none := by
          rw [ChanTable.sendResultAndDel, hc]; simp
        rw [ChanTable.sendResultAndDel]
        rw [h1]
    | none =>
        have h0 : s.sendResultAndDel k r = s := by
          rw [ChanTable.sendResultAndDel, hc]
        rw [h0, ChanTable.sendResultAndDel, hc]

/-- C2 witness: on a table with channel 5 registered for key 0, resolving
key 0 removes the entry and delivers to channel 5 alone, resolving key 1
(no waiter) is a no-op, and re-resolving key 0 changes nothing further. -/
theorem sendResultAndDel_resolves_exactly_once_witness :
    (ChanTable.sendResultAndDel ⟨fun x => if x = 0 then some 5 else none, 6, []⟩
      (0 : Nat) {}).table 0 = none ∧
    (ChanTable.sendResultAndDel ⟨fun x => if x = 0 then some 5 else none, 6, []⟩
      (0 : Nat) {}).delivered = [(5, {})] ∧
    ChanTable.sendResultAndDel ⟨fun x => if x = 0 then some 5 else none, 6, []⟩
      (1 : Nat) {} = ⟨fun x => if x = 0 then some 5 else none, 6, []⟩ ∧
    ChanTable.sendResultAndDel (ChanTable.sendResultAndDel
        ⟨fun x => if x = 0 then some 5 else none, 6, []⟩ (0 : Nat) {}) 0 {} =
      ChanTable.sendResultAndDel ⟨fun x => if x = 0 then some 5 else none, 6, []⟩
        (0 : Nat) {} := by
  refine ⟨?_, ?_, ?_, ?_⟩
  · exact ((sendResultAndDel_resolves_exactly_once Nat inferInstance _ 0 {} {}).1 5 rfl).1
  · exact ((sendResultAndDel_resolves_exactly_once Nat inferInstance _ 0 {} {}).1 5 rfl).2
  · exact (sendResultAndDel_resolves_exactly_once Nat inferInstance _ 1 {} {}).2.1 rfl
  · exact (sendResultAndDel_resolves_exactly_once Nat inferInstance _ 0 {} {}).2.2

/-- Resolutions deliver only to channels registered in the table, and
never introduce a table entry: a channel referenced by no table entry
receives no delivery from any sequence of resolves. -/
lemma runResolves_avoids_unreferenced (κ : Type) (inst : DecidableEq κ)
    (c : Nat) :
    ∀ (ops : List (κ × Result)) (s : ChanTable κ), (∀ k, s.table k ≠ some c) →
      (s.runResolves ops).deliveredTo c = s.deliveredTo c ∧
      (∀ k, (s.runResolves ops).table k ≠ some c) := by
  intro ops
  induction ops with
  | nil => intro s h; exact ⟨rfl, h⟩
  | cons p rest ih =>
      intro s h
      obtain ⟨k, r⟩ := p
      have hstep : (s.sendResultAndDel k r).deliveredTo c = s.deliveredTo c ∧
          (∀ k', (s.sendResultAndDel k r).table k' ≠ some c) := by
        match hc : s.table k with
        | none =>
            rw [ChanTable.sendResultAndDel, hc]
            exact ⟨rfl, h⟩
        | some c0 =>
            have hc0 : c0 ≠ c := by
              intro he; exact h k (he ▸ hc)
            rw [ChanTable.sendResultAndDel, hc]
            refine ⟨?_, ?_⟩
            · simp [ChanTable.deliveredTo, hc0]
            · intro k'
              by_cases hk : k' = k
              · simp [hk]
              · simpa [hk] using h k'
      have := ih (s.sendResultAndDel k r) hstep.2
      rw [ChanTable.runResolves]
      exact ⟨this.1.trans hstep.1, this.2⟩

/-- C8: registering a second waiter for a key before the first resolves
overwrites the table entry with the newer registration — the second
registration is installed, not rejected — and the displaced waiter's
channel is left unreferenced by the table, so no sequence of subsequent
resolves ever delivers a result to it (its caller can only time out). -/
theorem addChan_overwrites_and_orphans :
    ∀ (κ : Type) (inst : DecidableEq κ) (s : ChanTable κ) (k : κ)
      (c1 : Nat) (s1 : ChanTable κ) (c2 : Nat) (s2 : ChanTable κ),
      s.WF → s.addChan k = (c1, s1) → s1.addChan k = (c2, s2) →
      c1 ≠ c2 ∧ s2.table k = some c2 ∧ (∀ k', s2.table k' ≠ some c1) ∧
      (∀ ops, (s2.runResolves ops).deliveredTo c1 = s2.deliveredTo c1) := by
  intro κ inst s k c1 s1 c2 s2 hwf h1 h2
  rw [ChanTable.addChan] at h1 h2
  injection h1 with h1c h1s
  subst h1c
  subst h1s
  injection h2 with h2c h2s
  subst h2c
  subst h2s
  have horphan : ∀ k',
      (if k' = k then some (s.nextChan + 1)
        else if k' = k then some s.nextChan else s.table k') ≠ some s.nextChan := by
    intro k'
    by_cases hk : k' = k
    · rw [hk, if_pos rfl]
      intro he
      injection he with he
      omega
    · simp only [if_neg hk]
      intro he
      have hlt := hwf k' s.nextChan he
      omega
  refine ⟨?_, ?_, horphan, ?_⟩
  · show s.nextChan ≠ s.nextChan + 1
    omega
  · show (if k = k then some (s.nextChan + 1)
      else if k = k then some s.nextChan else s.table k) = some (s.nextChan + 1)
    simp
  · intro ops
    exact (runResolves_avoids_unreferenced κ inst s.nextChan ops _ horphan).1

/-- C8 witness: from the empty table, registering key 0 twice hands out
channels 0 then 1; channel 1 is the table entry, channel 0 is orphaned,
and a subsequent resolve of key 0 delivers nothing to channel 0. -/
theorem addChan_overwrites_and_orphans_witness :
    (0 : Nat) ≠ 1 ∧
    (ChanTable.addChan (ChanTable.addChan
      (⟨fun _ => none, 0, []⟩ : ChanTable Nat) 0).2 0).2.table 0 = some 1 ∧
    (ChanTable.addChan (ChanTable.addChan
      (⟨fun _ => none, 0, []⟩ : ChanTable Nat) 0).2 0).2.table 7 ≠ some 0 ∧
    (ChanTable.runResolves (ChanTable.addChan (ChanTable.addChan
        (⟨fun _ => none, 0, []⟩ : ChanTable Nat) 0).2 0).2 [(0, {})]).deliveredTo 0 =
      (ChanTable.addChan (ChanTable.addChan
        (⟨fun _ => none, 0, []⟩ : ChanTable Nat) 0).2 0).2.deliveredTo 0 := by
  have h := addChan_overwrites_and_orphans Nat inferInstance ⟨fun _ => none, 0, []⟩ 0
    0 (ChanTable.addChan (⟨fun _ => none, 0, []⟩ : ChanTable Nat) 0).2
    1 (ChanTable.addChan (ChanTable.addChan
      (⟨fun _ => none, 0, []⟩ : ChanTable Nat) 0).2 0).2
    (by intro k c hkc; simp at hkc) rfl rfl
  exact ⟨h.1, h.2.1, h.2.2.1 7, h.2.2.2 [(0, {})]⟩

/-- A batch of Starts appends, in order, exactly one Running stat per
non-failed command to the active instance set, and nothing for the failed
ones. -/
lemma runStartBatch_instances (batch : List (Bool × StartCmd)) :
    ∀ client : TestClient,
      (client.runStartBatch batch).instances =
        client.instances ++ batch.filterMap
          (fun p => if p.1 then none
            else some { instanceUUID := p.2.instanceUUID, state := InstState.running }) := by
  induction batch with
  | nil => intro client; simp [TestClient.runStartBatch]
  | cons p rest ih =>
      intro client
      obtain ⟨fail, cmd⟩ := p
      cases fail
      · rw [TestClient.runStartBatch, ih]
        simp [TestClient.handleStart, List.filterMap_cons]
      · rw [TestClient.runStartBatch, ih]
        simp [TestClient.handleStart, TestClient.sendStartFailure, List.filterMap_cons]

/-- C7: when the agent is configured to fail a Start, `handleStart` sets
the failure reason on the result, pushes a StartFailure error frame with
that reason, and does not add the instance to the active set; otherwise it
adds the instance with state Running.  Over a batch, the active set gains
exactly the non-failed instances in order, a wholly-failed UUID never
appears in the active set, and every non-failed command's UUID does. -/
theorem handleStart_failure_never_active :
    (∀ (client : TestClient) (cmd : StartCmd), client.startFail = true →
      (client.handleStart (some cmd)).1.err = some client.startFailReason ∧
      (client.handleStart (some cmd)).2.instances = client.instances ∧
      (client.handleStart (some cmd)).2.sentErrors =
        (SsntpErrorKind.startFailure, ⟨cmd.instanceUUID, client.startFailReason⟩) ::
          client.sentErrors) ∧
    (∀ (client : TestClient) (cmd : StartCmd), client.startFail = false →
      (client.handleStart (some cmd)).1.err = none ∧
      (client.handleStart (some cmd)).2.instances =
        client.instances ++ [{ instanceUUID := cmd.instanceUUID, state := InstState.running }]) ∧
    (∀ (client : TestClient) (batch : List (Bool × StartCmd)),
      (client.runStartBatch batch).instances =
        client.instances ++ batch.filterMap
          (fun p => if p.1 then none
            else some { instanceUUID := p.2.instanceUUID, state := InstState.running })) ∧
    (∀ (client : TestClient) (batch : List (Bool × StartCmd)) (u : String),
      (∀ st ∈ client.instances, st.instanceUUID ≠ u) →
      (∀ p ∈ batch, p.2.instanceUUID = u → p.1 = true) →
      ∀ st ∈ (client.runStartBatch batch).instances, st.instanceUUID ≠ u) ∧
    (∀ (client : TestClient) (batch : List (Bool × StartCmd)) (cmd : StartCmd),
      (false, cmd) ∈ batch →
      ∃ st ∈ (client.runStartBatch batch).instances,
        st.instanceUUID = cmd.instanceUUID) := by
  refine ⟨?_, ?_, fun client batch => runStartBatch_instances batch client, ?_, ?_⟩
  · intro client cmd h
    refine ⟨?_, ?_, ?_⟩ <;>
      simp [TestClient.handleStart, TestClient.sendStartFailure, h]
  · intro client cmd h
    refine ⟨?_, ?_⟩ <;> simp [TestClient.handleStart, h]
  · intro client batch u hinit hbatch st hst
    rw [runStartBatch_instances batch client] at hst
    rcases List.mem_append.mp hst with hmem | hmem
    · exact hinit st hmem
    · obtain ⟨p, hp, hpeq⟩ := List.mem_filterMap.mp hmem
      intro hu
      by_cases hfail : p.1
      · rw [if_pos hfail] at hpeq
        cases hpeq
      · rw [if_neg hfail] at hpeq
        injection hpeq with hpeq
        have : p.2.instanceUUID = u := by rw [← hu, ← hpeq]
        exact hfail (hbatch p hp this)
  · intro client batch cmd hmem
    refine ⟨{ instanceUUID := cmd.instanceUUID, state := InstState.running }, ?_, rfl⟩
    rw [runStartBatch_instances batch client]
    refine List.mem_append.mpr (Or.inr ?_)
    exact List.mem_filterMap.mpr ⟨(false, cmd), hmem, by simp⟩

/-- C7 witness: the Scenario C batch — three Starts with the second
configured to fail — leaves exactly instances 1 and 3 Running in the
active set, and a single failed Start records the error frame and leaves
the active set empty. -/
theorem handleStart_failure_never_active_witness :
    (TestClient.runStartBatch
        ⟨"node", false, false, "launch failure", [], ⟨fun _ => none, 0, []⟩, []⟩
        [(false, ⟨"i1", "t"⟩), (true, ⟨"i2", "t"⟩), (false, ⟨"i3", "t"⟩)]).instances =
      [{ instanceUUID := "i1", state := InstState.running },
       { instanceUUID := "i3", state := InstState.running }] ∧
    (TestClient.handleStart
        ⟨"node", false, true, "launch failure", [], ⟨fun _ => none, 0, []⟩, []⟩
        (some ⟨"i2", "t"⟩)).2.instances = [] ∧
    (TestClient.handleStart
        ⟨"node", false, true, "launch failure", [], ⟨fun _ => none, 0, []⟩, []⟩
        (some ⟨"i2", "t"⟩)).2.sentErrors =
      [(SsntpErrorKind.startFailure, ⟨"i2", "launch failure"⟩)] := by
  refine ⟨?_, ?_, ?_⟩
  · exact (handleStart_failure_never_active.2.2.1
      ⟨"node", false, false, "launch failure", [], ⟨fun _ => none, 0, []⟩, []⟩
      [(false, ⟨"i1", "t"⟩), (true, ⟨"i2", "t"⟩), (false, ⟨"i3", "t"⟩)]).trans (by rfl)
  · exact (handleStart_failure_never_active.1
      ⟨"node", false, true, "launch failure", [], ⟨fun _ => none, 0, []⟩, []⟩
      ⟨"i2", "t"⟩ rfl).2.1
  · exact (handleStart_failure_never_active.1
      ⟨"node", false, true, "launch failure", [], ⟨fun _ => none, 0, []⟩, []⟩
      ⟨"i2", "t"⟩ rfl).2.2

/-- The explicit server-ID loop: an ID that resolves to an instance of
another tenant makes the whole request 404 whenever it is in the list, and
the loop never invokes the action function on that ID. -/
lemma serverIDsLoop_mismatch (s : DSState) (tenant : String) (op : LifecycleOp)
    (instanceID : String) (inst : Instance)
    (hfind : s.getInstance instanceID = .ok inst) (hmis : inst.tenantID ≠ tenant) :
    ∀ ids : List String,
      (instanceID ∈ ids → (serverIDsLoop s tenant op ids).1 = .notFound) ∧
      (∀ p ∈ (serverIDsLoop s tenant op ids).2, p.2 ≠ instanceID) := by
  intro ids
  induction ids with
  | nil =>
      refine ⟨fun h => absurd h (List.not_mem_nil instanceID), ?_⟩
      intro p hp
      simp [serverIDsLoop] at hp
  | cons x rest ih =>
      match hx : s.getInstance x with
      | .error e =>
          have hred : serverIDsLoop s tenant op (x :: rest) = (.notFound, []) := by
            rw [serverIDsLoop, hx]
          rw [hred]
          exact ⟨fun _ => rfl, by intro p hp; simp at hp⟩
      | .ok instX =>
          have hred : serverIDsLoop s tenant op (x :: rest) =
              if instX.tenantID ≠ tenant then (HttpResp.notFound, [])
              else ((serverIDsLoop s tenant op rest).1,
                (op, x) :: (serverIDsLoop s tenant op rest).2) := by
            rw [serverIDsLoop, hx]
          rw [hred]
          by_cases hxt : instX.tenantID ≠ tenant
          · rw [if_pos hxt]
            exact ⟨fun _ => rfl, by intro p hp; simp at hp⟩
          · rw [if_neg hxt]
            have hxne : x ≠ instanceID := by
              intro he
              rw [he, hfind] at hx
              injection hx with hx
              exact hxt (hx ▸ hmis)
            refine ⟨?_, ?_⟩
            · intro hmem
              rcases List.mem_cons.mp hmem with he | hmem
              · exact absurd he.symm hxne
              · exact ih.1 hmem
            · intro p hp
              rcases List.mem_cons.mp hp with he | hp
              · rw [he]
                exact hxne
              · exact ih.2 p hp

/-- C9: for every handler operating on a single named instance —
`showServerDetails`, `deleteServer`, `serverAction`, and
`tenantServersAction` with an explicit server-ID list — an instance that
exists but belongs to a different tenant than the one named in the path
yields a 404 Not Found response, and no lifecycle operation is invoked on
that instance. -/
theorem tenant_mismatch_yields_404_and_no_lifecycle :
    ∀ (s : DSState) (tenant instanceID : String) (inst : Instance),
      s.getInstance instanceID = .ok inst → inst.tenantID ≠ tenant →
      showServerDetails true s tenant instanceID = (.notFound, []) ∧
      deleteServer true s tenant instanceID = (.notFound, []) ∧
      (∀ body, serverAction true s tenant instanceID body = (.notFound, [])) ∧
      (∀ action op ids, actionOf action = some op → instanceID ∈ ids →
        (tenantServersAction true s tenant action ids).1 = .notFound) ∧
      (∀ action ids, ∀ p ∈ (tenantServersAction true s tenant action ids).2,
        p.2 ≠ instanceID) := by
  intro s tenant instanceID inst hfind hmis
  refine ⟨?_, ?_, ?_, ?_, ?_⟩
  · simp [showServerDetails, hfind, hmis]
  · simp [deleteServer, hfind, hmis]
  · intro body
    simp [serverAction, hfind, hmis]
  · intro action op ids hop hmem
    rw [tenantServersAction, if_neg (by simp), hop]
    exact (serverIDsLoop_mismatch s tenant op instanceID inst hfind hmis ids).1 hmem
  · intro action ids p hp
    rw [tenantServersAction, if_neg (by simp)] at hp
    match hop : actionOf action with
    | none =>
        rw [hop] at hp
        simp at hp
    | some op =>
        rw [hop] at hp
        exact (serverIDsLoop_mismatch s tenant op instanceID inst hfind hmis ids).2 p hp

/-- C9 witness: instance i1 belongs to tenant t2; a request under tenant
t1 gets 404 from every handler and no lifecycle operation is invoked. -/
theorem tenant_mismatch_yields_404_witness :
    showServerDetails true
      ⟨fun _ => none, fun _ => [],
        [("i1", ⟨"t2", "i1", false, [10, 0, 0, 2], "", fun _ => 0⟩)], []⟩
      "t1" "i1" = (.notFound, []) ∧
    deleteServer true
      ⟨fun _ => none, fun _ => [],
        [("i1", ⟨"t2", "i1", false, [10, 0, 0, 2], "", fun _ => 0⟩)], []⟩
      "t1" "i1" = (.notFound, []) ∧
    serverAction true
      ⟨fun _ => none, fun _ => [],
        [("i1", ⟨"t2", "i1", false, [10, 0, 0, 2], "", fun _ => 0⟩)], []⟩
      "t1" "i1" "give me os-start" = (.notFound, []) ∧
    (tenantServersAction true
      ⟨fun _ => none, fun _ => [],
        [("i1", ⟨"t2", "i1", false, [10, 0, 0, 2], "", fun _ => 0⟩)], []⟩
      "t1" "os-delete" ["i1"]).1 = .notFound := by
  have h := tenant_mismatch_yields_404_and_no_lifecycle
    ⟨fun _ => none, fun _ => [],
      [("i1", ⟨"t2", "i1", false, [10, 0, 0, 2], "", fun _ => 0⟩)], []⟩
    "t1" "i1" ⟨"t2", "i1", false, [10, 0, 0, 2], "", fun _ => 0⟩ rfl (by decide)
  exact ⟨h.1, h.2.1, h.2.2.1 "give me os-start",
    h.2.2.2.1 "os-delete" .deleteOp ["i1"] rfl (by simp)⟩

end Ciao
